import Mathlib

/-!
Verification of the DockaCord event-notification pipeline.

The Go program watches Docker lifecycle events, classifies each event's
action string against configured severity lists, renders a Discord embed
payload, and posts it to a webhook.  The repository holds two variants of
the program: `main.go` (map-based classifier, server-side event filter)
and an earlier unnamed variant (slice-based classifier).  Both are
embedded below; external effects (filesystem, JSON codec, HTTP transport)
are made explicit parameters or oracles.
-/

namespace DockaCord

/-- `Config` mirrors the Go struct: webhook URL and three severity lists. -/
structure Config where
  Webhook : String
  Error : List String
  Warning : List String
  Info : List String
deriving Repr, DecidableEq

/-- The built-in default configuration (`defaultConfig` in both variants). -/
def defaultConfig : Config :=
  { Webhook := "discord-webhook-url"
    Error := ["die"]
    Warning := ["stop"]
    Info := ["start"] }

/-- `inSlice` from the unnamed variant: linear scan, true on first match. -/
def inSlice (action : String) : List String → Bool
  | [] => false
  | a :: rest => if a = action then true else inSlice action rest

/-- Slice-based `getEventLevel` from the unnamed variant: membership in the
error list first, then warning, then info; `""` when absent from all. -/
def getEventLevel (action : String) (cfg : Config) : String :=
  if inSlice action cfg.Error then "error"
  else if inSlice action cfg.Warning then "warning"
  else if inSlice action cfg.Info then "info"
  else ""

/-- The three global lookup maps of `main.go`, modelled as key lists: a Go
`map[string]bool` populated only with `true` values is its key set. -/
structure ActionMaps where
  errorActions : List String
  warnActions : List String
  infoActions : List String
deriving Repr

/-- Lookup in a Go `map[string]bool`: true exactly on inserted keys. -/
def mapLookup (m : List String) (k : String) : Bool :=
  m.contains k

/-- Insertion into a Go `map[string]bool` (`m[k] = true`). -/
def mapInsert (m : List String) (k : String) : List String :=
  if m.contains k then m else k :: m

/-- `populateActionMaps` from `main.go`: fill the three maps (empty after
`init`) from the config lists. -/
def populateActionMaps (cfg : Config) : ActionMaps :=
  { errorActions := cfg.Error.foldl mapInsert []
    warnActions := cfg.Warning.foldl mapInsert []
    infoActions := cfg.Info.foldl mapInsert [] }

/-- Map-based `getEventLevel` from `main.go`, reading the populated maps. -/
def getEventLevelMaps (maps : ActionMaps) (action : String) : String :=
  if mapLookup maps.errorActions action then "error"
  else if mapLookup maps.warnActions action then "warning"
  else if mapLookup maps.infoActions action then "info"
  else ""

/-- `getColor` from both variants: fixed colours per severity string. -/
def getColor (level : String) : Int :=
  if level = "warning" then 16776960
  else if level = "error" then 16711680
  else 3066993

/-- A Docker event as the program reads it: type tag (Go field `Type`),
action string, epoch time, and the actor's attribute map. -/
structure EventMsg where
  kind : String
  Action : String
  Time : Int
  ActorAttributes : List (String × String)
deriving Repr, DecidableEq

/-- Go map lookup `event.Actor.Attributes["name"]`: the zero value `""`
when the key is absent. -/
def lookupAttr (attrs : List (String × String)) (k : String) : String :=
  match attrs.find? (fun p => p.1 = k) with
  | some p => p.2
  | none => ""

/-- `fmt.Sprintf("<t:%d:R>", event.Time)`. -/
def fmtTimeR (t : Int) : String := "<t:" ++ toString t ++ ":R>"

/-- `fmt.Sprintf("<t:%d:F>", event.Time)`. -/
def fmtTimeF (t : Int) : String := "<t:" ++ toString t ++ ":F>"

/-- The Discord webhook payload built inside `notifyDiscord` (`main.go`
branding values). -/
structure Payload where
  username : String
  avatarUrl : String
  title : String
  url : String
  description : String
  color : Int
  footerText : String
  authorName : String
  authorIconUrl : String
deriving Repr, DecidableEq

/-- The payload construction at the top of `notifyDiscord` (`main.go`). -/
def renderPayload (e : EventMsg) (level : String) : Payload :=
  { username := "DockaCord"
    avatarUrl := "https://raw.githubusercontent.com/Lyzev/DockaCord/refs/heads/master/assets/docker-mark-blue.png"
    title := "Docker Event Notification - " ++ level.toUpper
    url := "https://lyzev.dev/"
    description := "**Container**: `" ++ lookupAttr e.ActorAttributes "name" ++ "`\n**Action**: `"
      ++ e.Action ++ "`\n**At**: " ++ fmtTimeF e.Time ++ " (" ++ fmtTimeR e.Time ++ ")"
    color := getColor level
    footerText := "© 2025 Lyzev."
    authorName := "Notification Bot"
    authorIconUrl := "https://raw.githubusercontent.com/Lyzev/DockaCord/refs/heads/master/assets/docker-mark-blue.png" }

/-- Outcome of the single `http.Post` call, supplied by the environment. -/
inductive HttpOutcome where
  | transportError
  | response (status : Nat)
deriving Repr, DecidableEq

/-- What `notifyDiscord` reports (the spec's error taxonomy for delivery). -/
inductive DeliverResult where
  | configErrorMissingWebhook
  | networkError
  | deliveryError (status : Nat)
  | success
deriving Repr, DecidableEq

/-- The observable behaviour of one `notifyDiscord` call: the HTTP POSTs
it issued (url and body) and how it concluded. -/
structure DeliverTrace where
  posts : List (String × Payload)
  result : DeliverResult
deriving Repr, DecidableEq

/-- `notifyDiscord` from `main.go`: build the payload, return early on an
empty webhook URL, otherwise POST once and classify the response status
(200/204 success, anything else logged as unexpected). -/
def notifyDiscord (e : EventMsg) (level : String) (webhookURL : String)
    (net : HttpOutcome) : DeliverTrace :=
  let payload := renderPayload e level
  if webhookURL = "" then
    { posts := [], result := .configErrorMissingWebhook }
  else
    match net with
    | .transportError =>
        { posts := [(webhookURL, payload)], result := .networkError }
    | .response s =>
        { posts := [(webhookURL, payload)]
          result := if s ≠ 200 ∧ s ≠ 204 then .deliveryError s else .success }

/-! ### Helper lemmas -/

theorem inSlice_eq_true_iff (a : String) (l : List String) :
    inSlice a l = true ↔ a ∈ l := by
  induction l with
  | nil => simp [inSlice]
  | cons x rest ih =>
      by_cases h : x = a
      · simp [inSlice, h]
      · simp [inSlice, h, ih]
        exact fun hax => (h hax.symm).elim

theorem mem_mapInsert (m : List String) (k a : String) :
    a ∈ mapInsert m k ↔ a = k ∨ a ∈ m := by
  unfold mapInsert
  by_cases hc : m.contains k = true
  · rw [if_pos hc]
    have hk : k ∈ m := List.elem_iff.mp hc
    constructor
    · exact Or.inr
    · rintro (rfl | h)
      · exact hk
      · exact h
  · rw [if_neg hc]
    simp

theorem mem_foldl_mapInsert (l : List String) (m : List String) (a : String) :
    a ∈ l.foldl mapInsert m ↔ a ∈ m ∨ a ∈ l := by
  induction l generalizing m with
  | nil => simp
  | cons k rest ih =>
      simp only [List.foldl_cons, ih, mem_mapInsert, List.mem_cons]
      tauto

theorem mapLookup_populate_error (cfg : Config) (a : String) :
    mapLookup (populateActionMaps cfg).errorActions a = true ↔ a ∈ cfg.Error := by
  simp [mapLookup, populateActionMaps, List.elem_iff, mem_foldl_mapInsert]

theorem mapLookup_populate_warn (cfg : Config) (a : String) :
    mapLookup (populateActionMaps cfg).warnActions a = true ↔ a ∈ cfg.Warning := by
  simp [mapLookup, populateActionMaps, List.elem_iff, mem_foldl_mapInsert]

theorem mapLookup_populate_info (cfg : Config) (a : String) :
    mapLookup (populateActionMaps cfg).infoActions a = true ↔ a ∈ cfg.Info := by
  simp [mapLookup, populateActionMaps, List.elem_iff, mem_foldl_mapInsert]

/-! ### Classifier claims -/

/-- C1: for every action `a` and config `cfg`, `getEventLevel` returns
exactly one of {"error", "warning", "info", ""} with first-match order:
"error" iff `a` is in the error list, else "warning" iff in the warning
list, else "info" iff in the info list, else "". -/
theorem getEventLevel_first_match (cfg : Config) (a : String) :
    (getEventLevel a cfg = "error" ∨ getEventLevel a cfg = "warning" ∨
      getEventLevel a cfg = "info" ∨ getEventLevel a cfg = "") ∧
    (getEventLevel a cfg = "error" ↔ a ∈ cfg.Error) ∧
    (getEventLevel a cfg = "warning" ↔ a ∉ cfg.Error ∧ a ∈ cfg.Warning) ∧
    (getEventLevel a cfg = "info" ↔
      a ∉ cfg.Error ∧ a ∉ cfg.Warning ∧ a ∈ cfg.Info) ∧
    (getEventLevel a cfg = "" ↔
      a ∉ cfg.Error ∧ a ∉ cfg.Warning ∧ a ∉ cfg.Info) := by
  by_cases h1 : a ∈ cfg.Error <;> by_cases h2 : a ∈ cfg.Warning <;>
    by_cases h3 : a ∈ cfg.Info <;>
    simp [getEventLevel, inSlice_eq_true_iff, h1, h2, h3]

/-- C9: the map-based classifier of `main.go` (global maps populated once
by `populateActionMaps`) and the slice-based classifier of the unnamed
variant agree on every config and every action. -/
theorem getEventLevel_maps_eq_slice (cfg : Config) (a : String) :
    getEventLevelMaps (populateActionMaps cfg) a = getEventLevel a cfg := by
  by_cases h1 : a ∈ cfg.Error <;> by_cases h2 : a ∈ cfg.Warning <;>
    by_cases h3 : a ∈ cfg.Info <;>
    simp [getEventLevelMaps, getEventLevel, inSlice_eq_true_iff,
      mapLookup_populate_error, mapLookup_populate_warn, mapLookup_populate_info,
      h1, h2, h3]

/-- C6: the severity-to-colour mapping is total and fixed: "warning" maps
to 16776960, "error" to 16711680, and every other level (including "info"
and "") to 3066993. -/
theorem getColor_total_fixed :
    getColor "warning" = 16776960 ∧ getColor "error" = 16711680 ∧
    ∀ level : String, level ≠ "warning" → level ≠ "error" →
      getColor level = 3066993 := by
  refine ⟨rfl, rfl, fun level h1 h2 => ?_⟩
  simp [getColor, h1, h2]

/-- Witness for C6: "info" is neither "warning" nor "error", and its
colour is the green constant. -/
theorem getColor_total_fixed_witness : getColor "info" = 3066993 :=
  getColor_total_fixed.2.2 "info" (by decide) (by decide)

/-! ### Delivery claims -/

/-- C2: called with the empty webhook URL, `notifyDiscord` issues no HTTP
POST at all (for any state of the network) and concludes with the
missing-webhook configuration error. -/
theorem notifyDiscord_empty_webhook (e : EventMsg) (level : String)
    (net : HttpOutcome) :
    (notifyDiscord e level "" net).posts = [] ∧
    (notifyDiscord e level "" net).result = .configErrorMissingWebhook := by
  constructor <;> rfl

/-- C4: on any HTTP response, `notifyDiscord` reports success exactly for
status 200 or 204; every other status yields the non-fatal
`deliveryError status` result (the call still returns normally, with the
POST recorded). -/
theorem notifyDiscord_status_policy (e : EventMsg) (level : String)
    (url : String) (s : Nat) (hurl : url ≠ "") :
    ((notifyDiscord e level url (.response s)).result = .success ↔
      s = 200 ∨ s = 204) ∧
    (s ≠ 200 → s ≠ 204 →
      (notifyDiscord e level url (.response s)).result = .deliveryError s) ∧
    (notifyDiscord e level url (.response s)).posts =
      [(url, renderPayload e level)] := by
  by_cases h200 : s = 200 <;> by_cases h204 : s = 204 <;>
    simp [notifyDiscord, hurl, h200, h204]

/-- Witness for C4: a concrete 500 response on a non-empty webhook URL is
reported as `deliveryError 500`, not success. -/
theorem notifyDiscord_status_policy_witness :
    (notifyDiscord ⟨"container", "die", 1700000000, [("name", "web-1")]⟩
      "error" "https://example.com/hook" (.response 500)).result =
      .deliveryError 500 :=
  (notifyDiscord_status_policy ⟨"container", "die", 1700000000, [("name", "web-1")]⟩
    "error" "https://example.com/hook" 500 (by decide)).2.1
    (by decide) (by decide)

/-- C10: the missing-webhook guard fires exactly on the empty string; the
auto-created default config carries the non-empty placeholder
"discord-webhook-url", so running with the untouched default passes the
guard and attempts a real POST to that placeholder (surfacing as a
transport failure), never as the missing-webhook error. -/
theorem defaultConfig_placeholder_posts :
    defaultConfig.Webhook = "discord-webhook-url" ∧
    (∀ (e : EventMsg) (level url : String) (net : HttpOutcome),
      (notifyDiscord e level url net).result = .configErrorMissingWebhook ↔
        url = "") ∧
    (∀ (e : EventMsg) (level : String) (net : HttpOutcome),
      (notifyDiscord e level defaultConfig.Webhook net).posts =
        [("discord-webhook-url", renderPayload e level)]) ∧
    (∀ (e : EventMsg) (level : String),
      (notifyDiscord e level defaultConfig.Webhook .transportError).result =
        .networkError) := by
  refine ⟨rfl, fun e level url net => ?_, fun e level net => ?_, fun e level => rfl⟩
  · by_cases hurl : url = ""
    · simp [notifyDiscord, hurl]
    · cases net with
      | transportError => simp [notifyDiscord, hurl]
      | response s =>
          by_cases h200 : s = 200 <;> by_cases h204 : s = 204 <;>
            simp [notifyDiscord, hurl, h200, h204]
  · cases net with
    | transportError => rfl
    | response s => rfl

/-! ### Renderer claims -/

theorem fmtTimeF_ne_fmtTimeR (t : Int) : fmtTimeF t ≠ fmtTimeR t := by
  intro h
  have h2 := congrArg (fun s => s.data.reverse) h
  simp [fmtTimeF, fmtTimeR, String.data_append, List.reverse_append] at h2

/-- C5: `renderPayload` is a pure function of the event fields and the
severity: the title is the fixed label joined with the upper-cased
severity, the description contains the actor's "name" attribute, the raw
action string and two distinct timestamp renderings both derived from the
event's single epoch time; events agreeing on action, time and actor
attributes render identically at every severity. -/
theorem renderPayload_spec (e : EventMsg) (level : String) :
    (renderPayload e level).title =
      "Docker Event Notification - " ++ level.toUpper ∧
    (∃ p q, (renderPayload e level).description =
      p ++ lookupAttr e.ActorAttributes "name" ++ q) ∧
    (∃ p q, (renderPayload e level).description = p ++ e.Action ++ q) ∧
    (∃ p q r, (renderPayload e level).description =
      p ++ fmtTimeF e.Time ++ q ++ fmtTimeR e.Time ++ r) ∧
    fmtTimeF e.Time ≠ fmtTimeR e.Time ∧
    (∀ e2 : EventMsg, e.Action = e2.Action → e.Time = e2.Time →
      e.ActorAttributes = e2.ActorAttributes →
      renderPayload e level = renderPayload e2 level) := by
  refine ⟨rfl, ?_, ?_, ?_, fmtTimeF_ne_fmtTimeR e.Time, ?_⟩
  · exact ⟨"**Container**: `",
      "`\n**Action**: `" ++ e.Action ++ "`\n**At**: " ++ fmtTimeF e.Time ++
        " (" ++ fmtTimeR e.Time ++ ")",
      by simp [renderPayload, String.append_assoc]⟩
  · exact ⟨"**Container**: `" ++ lookupAttr e.ActorAttributes "name" ++
        "`\n**Action**: `",
      "`\n**At**: " ++ fmtTimeF e.Time ++ " (" ++ fmtTimeR e.Time ++ ")",
      by simp [renderPayload, String.append_assoc]⟩
  · exact ⟨"**Container**: `" ++ lookupAttr e.ActorAttributes "name" ++
        "`\n**Action**: `" ++ e.Action ++ "`\n**At**: ",
      " (", ")",
      by simp [renderPayload, String.append_assoc]⟩
  · intro e2 ha ht hattr
    simp [renderPayload, ha, ht, hattr]

/-- Witness for C5: two concrete events differing only in the type tag
render to the same payload. -/
theorem renderPayload_spec_witness :
    renderPayload ⟨"container", "die", 1700000000, [("name", "web-1")]⟩ "error" =
      renderPayload ⟨"network", "die", 1700000000, [("name", "web-1")]⟩ "error" :=
  (renderPayload_spec ⟨"container", "die", 1700000000, [("name", "web-1")]⟩
    "error").2.2.2.2.2
    ⟨"network", "die", 1700000000, [("name", "web-1")]⟩ rfl rfl rfl

/-! ### Config supplier -/

/-- Error cases of `loadConfig` (the spec's `ConfigError`). -/
inductive ConfigError where
  | invalidJSON
deriving Repr, DecidableEq

/-- `loadConfig` from both variants, with the filesystem as an explicit
map from paths to contents and the external JSON codec as parameters:
when the file is absent, write the marshalled default and return the
default; otherwise parse the contents, failing on malformed JSON without
touching the filesystem. -/
def loadConfig (parse : String → Option Config) (marshalIndent : Config → String)
    (fs : String → Option String) (filename : String) :
    (String → Option String) × Except ConfigError Config :=
  match fs filename with
  | none =>
      (fun p => if p = filename then some (marshalIndent defaultConfig) else fs p,
        Except.ok defaultConfig)
  | some contents =>
      match parse contents with
      | some cfg => (fs, Except.ok cfg)
      | none => (fs, Except.error ConfigError.invalidJSON)

/-- C3: `loadConfig` behaves in exactly three ways — a nonexistent path
gets the marshalled default structure (error=["die"], warning=["stop"],
info=["start"]) written to it and the default returned; an existing file
whose contents parse is returned unchanged with the filesystem untouched;
malformed contents fail with `ConfigError` and the filesystem is left
exactly as it was. -/
theorem loadConfig_spec (parse : String → Option Config)
    (marshalIndent : Config → String) (fs : String → Option String)
    (filename : String) :
    (fs filename = none →
      (loadConfig parse marshalIndent fs filename).2 = Except.ok defaultConfig ∧
      (loadConfig parse marshalIndent fs filename).1 filename =
        some (marshalIndent defaultConfig) ∧
      ∀ p, p ≠ filename →
        (loadConfig parse marshalIndent fs filename).1 p = fs p) ∧
    (∀ contents cfg, fs filename = some contents → parse contents = some cfg →
      loadConfig parse marshalIndent fs filename = (fs, Except.ok cfg)) ∧
    (∀ contents, fs filename = some contents → parse contents = none →
      loadConfig parse marshalIndent fs filename =
        (fs, Except.error ConfigError.invalidJSON)) ∧
    defaultConfig.Error = ["die"] ∧ defaultConfig.Warning = ["stop"] ∧
    defaultConfig.Info = ["start"] := by
  refine ⟨fun habs => ?_, fun contents cfg hsome hparse => ?_,
    fun contents hsome hparse => ?_, rfl, rfl, rfl⟩
  · refine ⟨?_, ?_, fun p hp => ?_⟩ <;> simp [loadConfig, habs, *]
  · simp [loadConfig, hsome, hparse]
  · simp [loadConfig, hsome, hparse]

/-- Witness for C3: the three branches at concrete filesystems and a
concrete codec — absent file yields the default, a parsing file is
returned as parsed, a non-parsing file yields the JSON error with the
filesystem unchanged. -/
theorem loadConfig_spec_witness :
    (loadConfig (fun _ => none) (fun _ => "marshalled") (fun _ => none)
        "config.json").2 = Except.ok defaultConfig ∧
    loadConfig (fun _ => some ⟨"w", [], [], []⟩) (fun _ => "marshalled")
        (fun _ => some "valid") "config.json" =
      (fun _ => some "valid", Except.ok ⟨"w", [], [], []⟩) ∧
    loadConfig (fun _ => none) (fun _ => "marshalled")
        (fun _ => some "malformed") "config.json" =
      (fun _ => some "malformed", Except.error ConfigError.invalidJSON) :=
  ⟨((loadConfig_spec (fun _ => none) (fun _ => "marshalled") (fun _ => none)
      "config.json").1 rfl).1,
    (loadConfig_spec (fun _ => some ⟨"w", [], [], []⟩) (fun _ => "marshalled")
      (fun _ => some "valid") "config.json").2.1 "valid" ⟨"w", [], [], []⟩ rfl rfl,
    (loadConfig_spec (fun _ => none) (fun _ => "marshalled")
      (fun _ => some "malformed") "config.json").2.2.1 "malformed" rfl rfl⟩

/-! ### Event loop -/

/-- The two termination signals registered with `signal.Notify`. -/
inductive TermSig where
  | sigint
  | sigterm
deriving Repr, DecidableEq

/-- One arrival at the loop's three-way select: an event message, an
error-channel message, or a termination signal. -/
inductive LoopInput where
  | ev (e : EventMsg)
  | errMsg (hasError : Bool)
  | signal (s : TermSig)
deriving Repr, DecidableEq

/-- Pipeline invocations observable during one loop iteration. -/
inductive Call where
  | classify (action : String)
  | render (action : String)
  | deliver (url : String)
deriving Repr, DecidableEq

/-- Loop state from the spec's state machine. -/
inductive LoopStatus where
  | running
  | stopped
deriving Repr, DecidableEq

/-- `handleEvent` from `main.go`, as the pipeline calls it performs: it
always classifies, returns at once on level "", and otherwise renders and
hands the payload to `notifyDiscord` (whose POSTs are the deliveries). -/
def handleEventTrace (cfg : Config) (e : EventMsg) (net : HttpOutcome) :
    List Call :=
  let level := getEventLevel e.Action cfg
  if level = "" then [Call.classify e.Action]
  else
    Call.classify e.Action :: Call.render e.Action ::
      (notifyDiscord e level cfg.Webhook net).posts.map (fun p => Call.deliver p.1)

/-- One iteration of the select in `handleDockerEvents`: events are handed
to `handleEvent` only when the type tag is "container"; error-channel
messages are logged; a signal returns from the loop. -/
def loopStep (cfg : Config) (net : HttpOutcome) :
    LoopInput → LoopStatus × List Call
  | .ev e =>
      (.running, if e.kind = "container" then handleEventTrace cfg e net else [])
  | .errMsg _ => (.running, [])
  | .signal _ => (.stopped, [])

/-- The `for { select { ... } }` loop of `handleDockerEvents` over a
finite arrival sequence: iterate until a signal returns, collecting the
pipeline calls; an exhausted sequence leaves the loop still running
(blocked at the select). -/
def runLoop (cfg : Config) (net : HttpOutcome) :
    List LoopInput → List Call × LoopStatus
  | [] => ([], .running)
  | i :: rest =>
      match loopStep cfg net i with
      | (.stopped, calls) => (calls, .stopped)
      | (.running, calls) =>
          let r := runLoop cfg net rest
          (calls ++ r.1, r.2)

/-- C7: an event whose type tag is not "container" is dropped before
classification — the iteration performs no classifier, renderer or
delivery call — and a container event classified as "" produces no
delivery call. -/
theorem nonContainer_and_none_dropped (cfg : Config) (net : HttpOutcome)
    (e : EventMsg) :
    (e.kind ≠ "container" → (loopStep cfg net (.ev e)).2 = []) ∧
    (getEventLevel e.Action cfg = "" →
      ∀ u, Call.deliver u ∉ (loopStep cfg net (.ev e)).2) := by
  constructor
  · intro hk
    simp [loopStep, hk]
  · intro hlevel u
    by_cases hk : e.kind = "container" <;>
      simp [loopStep, handleEventTrace, hk, hlevel]

/-- Witness for C7: a non-container event with action "die" produces no
calls at all under the default config, and a container event with an
unconfigured action produces no delivery call. -/
theorem nonContainer_and_none_dropped_witness :
    (loopStep defaultConfig .transportError
      (.ev ⟨"network", "die", 1700000000, [("name", "web-1")]⟩)).2 = [] ∧
    Call.deliver "discord-webhook-url" ∉
      (loopStep defaultConfig .transportError
        (.ev ⟨"container", "connect", 1700000000, [("name", "web-1")]⟩)).2 :=
  ⟨(nonContainer_and_none_dropped defaultConfig .transportError
      ⟨"network", "die", 1700000000, [("name", "web-1")]⟩).1 (by decide),
    (nonContainer_and_none_dropped defaultConfig .transportError
      ⟨"container", "connect", 1700000000, [("name", "web-1")]⟩).2 (by decide)
      "discord-webhook-url"⟩

/-- C8: either termination signal moves the loop from Running to Stopped
and returns immediately with no pipeline call, event and error-channel
arrivals always leave the loop Running, and over any arrival sequence the
loop reaches Stopped exactly when some arrival is a signal. -/
theorem signal_only_exit (cfg : Config) (net : HttpOutcome) :
    (∀ s : TermSig, loopStep cfg net (.signal s) = (.stopped, [])) ∧
    (∀ e : EventMsg, (loopStep cfg net (.ev e)).1 = .running) ∧
    (∀ b : Bool, (loopStep cfg net (.errMsg b)).1 = .running) ∧
    (∀ ins : List LoopInput,
      (runLoop cfg net ins).2 = .stopped ↔ ∃ s, LoopInput.signal s ∈ ins) := by
  refine ⟨fun s => rfl, fun e => rfl, fun b => rfl, fun ins => ?_⟩
  induction ins with
  | nil => simp [runLoop]
  | cons i rest ih =>
      cases i with
      | ev e => simp [runLoop, loopStep, ih]
      | errMsg b => simp [runLoop, loopStep, ih]
      | signal s => simp [runLoop, loopStep]

end DockaCord
